import Mathlib

/-!
Shallow embedding of the `msgraph` AuthenticationStrengthPolicies client and the
`conditionalaccess` authentication-strength resource lifecycle functions
(create / read / update / delete), together with proofs about the polling and
error-handling behaviour those functions implement.

The Go source threads HTTP effects through a `BaseClient`; here each embedded
function takes the observable outcome of every remote call it performs as an
explicit argument, and returns the list of remote actions it issued alongside
its result, so that control flow (which requests happen, in which order, and
which diagnostic is returned) is captured faithfully.
-/

/-- An error produced by the Graph transport layer (wrapping of the message by
`fmt.Errorf` is irrelevant to control flow and is not modelled). -/
structure GraphError where
  msg : String
deriving DecidableEq, Repr

/-- HTTP status code accompanying a client call result. -/
abbrev StatusCode := Nat

/-- Go `msgraph.BaseauthenticationStrength`: the shared identity shape of the
named-location subtypes (pointer fields become `Option`). -/
structure BaseauthenticationStrength where
  ID : Option String
  DisplayName : Option String
deriving DecidableEq, Repr

/-- Go `msgraph.IPauthenticationStrength`: IP-range-based subtype.  The embedded
`*BaseauthenticationStrength` is the `base` field; the list of IP ranges is
modelled as the list of CIDR strings. -/
structure IPauthenticationStrength where
  base : BaseauthenticationStrength
  IpRanges : List String
  IsTrusted : Option Bool
deriving DecidableEq, Repr

/-- Go `msgraph.CountryauthenticationStrength`: country-list-based subtype. -/
structure CountryauthenticationStrength where
  base : BaseauthenticationStrength
  CountriesAndRegions : List String
  IncludeUnknownCountriesAndRegions : Option Bool
deriving DecidableEq, Repr

/-- The dynamic type of the value behind the `*NamedLocation` interface returned
by a read: the Go code type-asserts against the two concrete subtypes, and a
value of any other concrete type (e.g. the bare base shape) matches neither. -/
inductive NamedLocation
  | ipLoc (l : IPauthenticationStrength)
  | countryLoc (c : CountryauthenticationStrength)
  | otherLoc (b : BaseauthenticationStrength)
deriving DecidableEq, Repr

/-- Go `msgraph.AuthenticationStrengthPolicy` (the fields relevant to the
client operations; pointers become `Option`). -/
structure AuthenticationStrengthPolicy where
  ID : Option String
  DisplayName : Option String
  AllowedCombinations : Option (List String)
deriving DecidableEq, Repr

/-- A remote HTTP request issued by the client, identified by its URI entity. -/
structure RemoteRequest where
  uri : String
deriving DecidableEq, Repr

/-- Result of `AuthenticationStrengthPoliciesClient.Update`: the requests it
issued, the returned status, and the returned error. -/
structure ClientUpdateOutcome where
  issued : List RemoteRequest
  status : StatusCode
  err : Option GraphError
deriving DecidableEq, Repr

/-- Go `AuthenticationStrengthPoliciesClient.Update`.  A nil `ID` returns the
error `cannot update AuthenticationStrengthPolicy with nil ID` before any
request is made (with `status` still at its zero value); otherwise the policy
is marshalled and PATCHed to the per-id URI, and a patch failure is wrapped and
returned with the patch status.  `patchResult` is the outcome of the single
`BaseClient.Patch` round trip when it is issued. -/
def AuthenticationStrengthPoliciesClient.Update
    (policy : AuthenticationStrengthPolicy)
    (patchResult : StatusCode × Option GraphError) : ClientUpdateOutcome :=
  match policy.ID with
  | none =>
      { issued := []
        status := 0
        err := some { msg := "cannot update AuthenticationStrengthPolicy with nil ID" } }
  | some id =>
      let (status, patchErr) := patchResult
      { issued := [{ uri := "/policies/authenticationStrengthPolicies/" ++ id }]
        status := status
        err := patchErr }

/-- The mutable transport state the delete-confirmation probe toggles: the
shared `DisableRetries` boolean on the `BaseClient` (other client configuration
is unaffected by the probe and represented by `config`). -/
structure BaseClientState where
  DisableRetries : Bool
  config : String
deriving DecidableEq, Repr

/-- Outcome of one invocation of the closure passed to `helpers.WaitForDeletion`
in `authenticationStrengthResourceDelete`: the value of `DisableRetries` at the
moment the inner `client.Get` was issued, the client state when the closure
returns, and the closure return values `(*bool, error)`. -/
structure ProbeOutcome where
  flagSeenByGet : Bool
  finalState : BaseClientState
  stillExists : Option Bool
  probeErr : Option GraphError
deriving DecidableEq, Repr

/-- Result of the read the probe performs: either a successful get, or a
failure carrying the status code and error. -/
inductive ProbeGetResult
  | found
  | failed (status : StatusCode) (e : GraphError)
deriving DecidableEq, Repr

/-- The `WaitForDeletion` closure from `authenticationStrengthResourceDelete`:
it sets `DisableRetries := true`, defers restoring it to `false`, performs one
`client.Get`; a successful get returns `(*true, nil)`, a failure with status
404 returns `(*false, nil)`, and any other failure returns `(nil, err)`.  The
deferred restore runs on every return path. -/
def deletionProbe (s : BaseClientState) (getResult : ProbeGetResult) : ProbeOutcome :=
  let s1 : BaseClientState := { s with DisableRetries := true }
  let seen := s1.DisableRetries
  let s2 : BaseClientState := { s1 with DisableRetries := false }
  match getResult with
  | .found =>
      { flagSeenByGet := seen, finalState := s2, stillExists := some true, probeErr := none }
  | .failed status e =>
      if status = 404 then
        { flagSeenByGet := seen, finalState := s2, stillExists := some false, probeErr := none }
      else
        { flagSeenByGet := seen, finalState := s2, stillExists := none, probeErr := some e }

/-- Modelled from the spec: the poll-state label `helpers.WaitForDeletion`
(not present in the source files) assigns to a probe return value — a probe
reporting the resource still exists is `Pending`, a probe reporting it gone is
`Absent`. -/
def deletionWaitLabel (stillExists : Option Bool) : String :=
  match stillExists with
  | some true => "Pending"
  | some false => "Absent"
  | none => "Error"

/-- The caller-visible flattened form of an IP named location, as produced by
`flattenIPauthenticationStrength` and compared by the update refresh function
(the map with keys `ip_ranges` and `trusted`). -/
structure IPFields where
  ip_ranges : List String
  trusted : Bool
deriving DecidableEq, Repr

/-- The caller-visible flattened form of a country named location (the map with
keys `countries_and_regions` and `include_unknown_countries_and_regions`). -/
structure CountryFields where
  countries_and_regions : List String
  include_unknown_countries_and_regions : Bool
deriving DecidableEq, Repr

/-- Modelled from the spec: `flattenIPauthenticationStrength` is referenced by
the read and update paths but its body is not among the source files; per the
read-then-dispatch description it projects a non-nil IP location to the
caller-visible IP fields (a one-element list) and a nil one to an empty list,
defaulting an absent trusted flag to false. -/
def flattenIPauthenticationStrength : Option IPauthenticationStrength → List IPFields
  | none => []
  | some l => [{ ip_ranges := l.IpRanges, trusted := l.IsTrusted.getD false }]

/-- Modelled from the spec: `flattenCountryauthenticationStrength`, the country
analogue of the IP flatten helper. -/
def flattenCountryauthenticationStrength : Option CountryauthenticationStrength → List CountryFields
  | none => []
  | some c => [{ countries_and_regions := c.CountriesAndRegions
                 include_unknown_countries_and_regions :=
                   c.IncludeUnknownCountriesAndRegions.getD false }]

/-- The underlying cause wrapped into a diagnostic: either a propagated Graph
error, or a fresh error constructed at the call site with `errors.New`. -/
inductive DiagCause
  | graph (e : GraphError)
  | newError (msg : String)
deriving DecidableEq, Repr

/-- A structured diagnostic as produced by `tf.ErrorDiagF` and
`tf.ErrorDiagPathF` (format arguments folded into the summary). -/
inductive Diag
  | errorF (cause : DiagCause) (summary : String)
  | errorPathF (cause : DiagCause) (path : String) (summary : String)
deriving DecidableEq, Repr

/-- Whether a diagnostic propagates the given Graph error as its cause. -/
def Diag.carriesGraphError : Diag → GraphError → Bool
  | .errorF (.graph e) _, e0 => e == e0
  | .errorPathF (.graph e) _ _, e0 => e == e0
  | _, _ => false

/-- The Terraform state record the resource functions manipulate: the stored
id (empty string when cleared by `d.SetId("")`), and the three schema fields;
`none` for a block means the field has never been set. -/
structure ResourceData where
  id : String
  display_name : Option String
  ip : Option (List IPFields)
  country : Option (List CountryFields)
deriving DecidableEq, Repr

/-- Outcome of the single `client.Get` performed by the read function:
the interface value (if any), the status code, and the error. -/
structure ReadGetOutcome where
  result : Option NamedLocation
  status : StatusCode
  err : Option GraphError
deriving DecidableEq, Repr

/-- The body of `authenticationStrengthResourceRead` after the not-found
check: nil result is a `Bad API response` diagnostic; an IP subtype with nil ID
is a diagnostic, otherwise it sets the id, display name and `ip` block; the
country subtype analogously sets the `country` block; any other concrete type
matches neither type assertion and the function returns with no diagnostic. -/
def readDispatch (result : Option NamedLocation) (d : ResourceData) :
    ResourceData × Option Diag :=
  match result with
  | none => (d, some (.errorF (.newError "Bad API response") "Result is nil"))
  | some (.ipLoc l) =>
      match l.base.ID with
      | none => (d, some (.errorF (.newError "Bad API response")
          "ID is nil for returned IP Named Location"))
      | some locId =>
          ({ d with id := locId
                    display_name := l.base.DisplayName
                    ip := some (flattenIPauthenticationStrength (some l)) }, none)
  | some (.countryLoc c) =>
      match c.base.ID with
      | none => (d, some (.errorF (.newError "Bad API response")
          "ID is nil for returned Country Named Location"))
      | some locId =>
          ({ d with id := locId
                    display_name := c.base.DisplayName
                    country := some (flattenCountryauthenticationStrength (some c)) }, none)
  | some (.otherLoc _) => (d, none)

/-- Go `authenticationStrengthResourceRead`: on a get error with status 404 the
id is cleared and the function returns with no diagnostic; on any other get
error control falls through (there is no early return) into the nil-result
check and the subtype dispatch. -/
def authenticationStrengthResourceRead (g : ReadGetOutcome) (d : ResourceData) :
    ResourceData × Option Diag :=
  match g.err with
  | some _ =>
      if g.status = 404 then ({ d with id := "" }, none)
      else readDispatch g.result d
  | none => readDispatch g.result d

/-- The update refresh closure for the IP branch of
`authenticationStrengthResourceUpdate`: a get error yields the `Error` label
carrying the error; otherwise, when the flattened result is non-empty, a
structural mismatch on `ip_ranges` or a mismatch on `trusted` against the
desired block yields `Pending`; in every remaining case the label is
`Updated`. -/
def ipUpdateRefreshFunc (getResult : Except GraphError (Option IPauthenticationStrength))
    (desired : IPFields) : String × Option GraphError :=
  match getResult with
  | .error e => ("Error", some e)
  | .ok result =>
      match flattenIPauthenticationStrength result with
      | location :: _ =>
          if location.ip_ranges ≠ desired.ip_ranges then ("Pending", none)
          else if location.trusted ≠ desired.trusted then ("Pending", none)
          else ("Updated", none)
      | [] => ("Updated", none)

/-- The update refresh closure for the country branch of
`authenticationStrengthResourceUpdate`, comparing `countries_and_regions`
structurally and `include_unknown_countries_and_regions` as booleans. -/
def countryUpdateRefreshFunc
    (getResult : Except GraphError (Option CountryauthenticationStrength))
    (desired : CountryFields) : String × Option GraphError :=
  match getResult with
  | .error e => ("Error", some e)
  | .ok result =>
      match flattenCountryauthenticationStrength result with
      | location :: _ =>
          if location.countries_and_regions ≠ desired.countries_and_regions then
            ("Pending", none)
          else if location.include_unknown_countries_and_regions ≠
              desired.include_unknown_countries_and_regions then ("Pending", none)
          else ("Updated", none)
      | [] => ("Updated", none)

/-- The PATCH body the IP branch of the update path sends: the base carries the
id and, exactly when `display_name` has a pending change, the new display
name; the IP fields carry the desired block. -/
def ipUpdateRequest (id : String) (displayNameChange : Option String)
    (desired : IPFields) : IPauthenticationStrength :=
  { base := { ID := some id, DisplayName := displayNameChange }
    IpRanges := desired.ip_ranges
    IsTrusted := some desired.trusted }

/-- Whether the observed location agrees with the update request on every field
the request touches: the IP ranges, the trusted flag, and — when the request
carries a display-name change — the display name. -/
def touchedFieldsMatch (req observed : IPauthenticationStrength) : Bool :=
  observed.IpRanges == req.IpRanges
    && (match req.IsTrusted with
        | some t => observed.IsTrusted.getD false == t
        | none => true)
    && (match req.base.DisplayName with
        | some dn => observed.base.DisplayName == some dn
        | none => true)

/-- Remote actions observable in a run of `authenticationStrengthResourceCreate`
(the trailing call into the read function is recorded as `readPhase`). -/
inductive CAction
  | createIP
  | createCountry
  | pollWait
  | readPhase
deriving DecidableEq, Repr

/-- Outcomes of the remote calls the create path may perform. -/
structure CreateEnv where
  createIPResult : Except GraphError IPauthenticationStrength
  createCountryResult : Except GraphError CountryauthenticationStrength
deriving Repr

/-- Go `authenticationStrengthResourceCreate`: with an `ip` block it creates an
IP location, errors on a failed call or a nil/empty returned ID, otherwise
stores the id and proceeds directly into the read function; with a `country`
block, the analogous country path; with neither, a diagnostic. -/
def authenticationStrengthResourceCreate (hasIp hasCountry : Bool) (env : CreateEnv)
    (d : ResourceData) : List CAction × ResourceData × Option Diag :=
  if hasIp then
    match env.createIPResult with
    | .error e => ([.createIP], d, some (.errorF (.graph e) "Could not create named location"))
    | .ok loc =>
        match loc.base.ID with
        | none => ([.createIP], d, some (.errorF (.newError "Bad API response")
            "Object ID returned for named location is nil/empty"))
        | some locId =>
            if locId = "" then
              ([.createIP], d, some (.errorF (.newError "Bad API response")
                "Object ID returned for named location is nil/empty"))
            else ([.createIP, .readPhase], { d with id := locId }, none)
  else if hasCountry then
    match env.createCountryResult with
    | .error e => ([.createCountry], d, some (.errorF (.graph e) "Could not create named location"))
    | .ok loc =>
        match loc.base.ID with
        | none => ([.createCountry], d, some (.errorF (.newError "Bad API response")
            "Object ID returned for named location is nil/empty"))
        | some locId =>
            if locId = "" then
              ([.createCountry], d, some (.errorF (.newError "Bad API response")
                "Object ID returned for named location is nil/empty"))
            else ([.createCountry, .readPhase], { d with id := locId }, none)
  else
    ([], d, some (.errorF (.newError "one of ip or country must be specified")
      "Unable to determine named location type"))

/-- Remote actions observable in a run of `authenticationStrengthResourceDelete`
(the call into `helpers.WaitForDeletion` is recorded as `waitPoll`). -/
inductive DAction
  | getIP
  | updateIP (isTrusted : Bool)
  | getCountry
  | deleteReq
  | waitPoll
deriving DecidableEq, Repr

/-- Outcomes of the remote calls the delete path may perform. -/
structure DeleteEnv where
  getIPResult : Except (StatusCode × GraphError) (Option IPauthenticationStrength)
  updateIPResult : Option GraphError
  getCountryResult : Except (StatusCode × GraphError) Unit
  deleteResult : StatusCode × Option GraphError
  waitResult : Option GraphError
deriving Repr

/-- The tail of the delete path: issue the delete request, error on failure,
then run the deletion wait and error on its failure. -/
def deleteAfterChecks (acts : List DAction) (env : DeleteEnv) :
    List DAction × Option Diag :=
  let acts := acts ++ [.deleteReq]
  match env.deleteResult with
  | (_, some e) => (acts, some (.errorPathF (.graph e) "id" "Deleting named location"))
  | (_, none) =>
      let acts := acts ++ [.waitPoll]
      match env.waitResult with
      | some e => (acts, some (.errorF (.graph e) "waiting for deletion of named location"))
      | none => (acts, none)

/-- The country branch of the delete path: with a `country` block, a pre-delete
get whose 404 is success and whose other errors are diagnostics; then the
common tail. -/
def deleteCountryCheck (acts : List DAction) (hasCountry : Bool) (env : DeleteEnv) :
    List DAction × Option Diag :=
  if hasCountry then
    match env.getCountryResult with
    | .error (status, e) =>
        if status = 404 then (acts ++ [.getCountry], none)
        else (acts ++ [.getCountry], some (.errorPathF (.graph e) "id" "Retrieving named location"))
    | .ok _ => deleteAfterChecks (acts ++ [.getCountry]) env
  else deleteAfterChecks acts env

/-- Go `authenticationStrengthResourceDelete`: with an `ip` block, a pre-delete
get (404 means already deleted and is success; other errors are diagnostics);
a non-nil response marked trusted triggers an update clearing the trusted flag
before anything else; then the country branch check and the common delete and
wait tail. -/
def authenticationStrengthResourceDelete (hasIp hasCountry : Bool) (env : DeleteEnv) :
    List DAction × Option Diag :=
  if hasIp then
    match env.getIPResult with
    | .error (status, e) =>
        if status = 404 then ([.getIP], none)
        else ([.getIP], some (.errorPathF (.graph e) "id" "Retrieving named location"))
    | .ok resp =>
        match resp with
        | some r =>
            if r.IsTrusted = some true then
              match env.updateIPResult with
              | some e => ([.getIP, .updateIP false],
                  some (.errorF (.graph e) "Updating named location"))
              | none => deleteCountryCheck [.getIP, .updateIP false] hasCountry env
            else deleteCountryCheck [.getIP] hasCountry env
        | none => deleteCountryCheck [.getIP] hasCountry env
  else deleteCountryCheck [] hasCountry env

/-- C9: for every AuthenticationStrengthPolicy whose ID field is nil, the
client Update operation returns the nil-ID error immediately, with no remote
request issued and the status at its zero value. -/
theorem C9_client_update_nil_id (p : AuthenticationStrengthPolicy)
    (patchResult : StatusCode × Option GraphError) (h : p.ID = none) :
    AuthenticationStrengthPoliciesClient.Update p patchResult =
      { issued := []
        status := 0
        err := some { msg := "cannot update AuthenticationStrengthPolicy with nil ID" } } := by
  simp [AuthenticationStrengthPoliciesClient.Update, h]

theorem C9_client_update_nil_id_witness :
    ({ ID := none, DisplayName := some "p1", AllowedCombinations := none } :
        AuthenticationStrengthPolicy).ID = none ∧
      AuthenticationStrengthPoliciesClient.Update
          { ID := none, DisplayName := some "p1", AllowedCombinations := none } (204, none) =
        { issued := []
          status := 0
          err := some { msg := "cannot update AuthenticationStrengthPolicy with nil ID" } } :=
  ⟨rfl, C9_client_update_nil_id _ _ rfl⟩

/-- C8: every invocation of the delete-confirmation probe issues its read with
`DisableRetries` set to true and returns with the flag restored to false, on
the success path and on every error path alike. -/
theorem C8_disable_retries_set_and_restored (s : BaseClientState) (r : ProbeGetResult) :
    (deletionProbe s r).flagSeenByGet = true ∧
      (deletionProbe s r).finalState.DisableRetries = false := by
  cases r with
  | found => simp [deletionProbe]
  | failed status e =>
      by_cases h : status = 404 <;> simp [deletionProbe, h]

/-- C2: the delete-confirmation probe reports the resource still present
(label Pending) while the read succeeds, reports it gone (label Absent) on a
not-found read, propagates any other read error as a hard failure, and on the
read sequence found, found, not-found reports Pending, Pending, Absent. -/
theorem C2_deletion_probe_labels (s : BaseClientState) (e : GraphError) :
    (deletionProbe s .found).stillExists = some true ∧
      deletionWaitLabel (deletionProbe s .found).stillExists = "Pending" ∧
      (deletionProbe s .found).probeErr = none ∧
      (deletionProbe s (.failed 404 e)).stillExists = some false ∧
      deletionWaitLabel (deletionProbe s (.failed 404 e)).stillExists = "Absent" ∧
      (deletionProbe s (.failed 404 e)).probeErr = none ∧
      (∀ status, status ≠ 404 →
        (deletionProbe s (.failed status e)).stillExists = none ∧
          (deletionProbe s (.failed status e)).probeErr = some e) ∧
      List.map (fun r => deletionWaitLabel (deletionProbe s r).stillExists)
          [ProbeGetResult.found, .found, .failed 404 e] =
        ["Pending", "Pending", "Absent"] := by
  refine ⟨rfl, rfl, rfl, ?_, ?_, ?_, ?_, ?_⟩
  · simp [deletionProbe]
  · simp [deletionProbe, deletionWaitLabel]
  · simp [deletionProbe]
  · intro status h
    simp [deletionProbe, h]
  · simp [deletionProbe, deletionWaitLabel]

theorem C2_deletion_probe_labels_witness :
    (500 : StatusCode) ≠ 404 ∧
      ((deletionProbe { DisableRetries := false, config := "v1" }
            (.failed 500 { msg := "boom" })).stillExists = none ∧
        (deletionProbe { DisableRetries := false, config := "v1" }
            (.failed 500 { msg := "boom" })).probeErr = some { msg := "boom" }) :=
  ⟨by decide,
    (C2_deletion_probe_labels { DisableRetries := false, config := "v1" }
        { msg := "boom" }).2.2.2.2.2.2.1 500 (by decide)⟩

/-- C4: a successful read whose result matches neither concrete named-location
subtype returns with no diagnostic and no fields populated — the code completes
silently instead of returning the inconsistent-response error the claim
requires. -/
theorem C4_unknown_subtype_read_is_silent :
    authenticationStrengthResourceRead
        { result := some (.otherLoc { ID := some "loc1", DisplayName := some "base" })
          status := 200
          err := none }
        { id := "loc1", display_name := none, ip := none, country := none } =
      ({ id := "loc1", display_name := none, ip := none, country := none }, none) := by
  rfl

/-- C5: a read failing with a non-404 transport error does not surface that
transport error: control falls through to the nil-result check and the caller
receives the constructed Bad API response diagnostic, which does not carry the
transport error. -/
theorem C5_transport_error_not_surfaced :
    (authenticationStrengthResourceRead
          { result := none, status := 500, err := some { msg := "connection reset" } }
          { id := "loc1", display_name := none, ip := none, country := none }).2 =
        some (.errorF (.newError "Bad API response") "Result is nil") ∧
      (authenticationStrengthResourceRead
          { result := none, status := 500, err := some { msg := "connection reset" } }
          { id := "loc1", display_name := none, ip := none, country := none }).2.map
          (fun dg => dg.carriesGraphError { msg := "connection reset" }) =
        some false := by
  constructor
  · rfl
  · rfl

/-- C1 as stated is false: the update also touches the display name (the PATCH
base carries it whenever it has a pending change), yet the refresh function
never compares it — here the observed display name still differs from the
requested one while the refresh already reports Updated. -/
theorem C1_counterexample :
    ipUpdateRefreshFunc
        (Except.ok (some { base := { ID := some "loc1", DisplayName := some "old name" }
                           IpRanges := ["10.0.0.0/8"]
                           IsTrusted := some false }))
        { ip_ranges := ["10.0.0.0/8"], trusted := false } = ("Updated", none) ∧
      touchedFieldsMatch
        (ipUpdateRequest "loc1" (some "new name") { ip_ranges := ["10.0.0.0/8"], trusted := false })
        { base := { ID := some "loc1", DisplayName := some "old name" }
          IpRanges := ["10.0.0.0/8"]
          IsTrusted := some false } = false := by
  decide

/-- C1 amended: each update refresh function fetches the observed state and
compares exactly the subtype-specific fields (ip_ranges and trusted for the IP
branch; countries_and_regions and include_unknown_countries_and_regions for
the country branch) with structural equality, reporting Pending when any of
those differ, Updated once they all match, and Error carrying the cause when
the fetch fails; the display name the update may also touch is not compared. -/
theorem C1_update_refresh_subtype_fields
    (ipRes : IPauthenticationStrength) (des : IPFields)
    (cRes : CountryauthenticationStrength) (cdes : CountryFields) (e : GraphError) :
    (ipUpdateRefreshFunc (.ok (some ipRes)) des = ("Updated", none) ↔
      (ipRes.IpRanges = des.ip_ranges ∧ ipRes.IsTrusted.getD false = des.trusted)) ∧
      (ipUpdateRefreshFunc (.ok (some ipRes)) des = ("Pending", none) ↔
        ¬(ipRes.IpRanges = des.ip_ranges ∧ ipRes.IsTrusted.getD false = des.trusted)) ∧
      ipUpdateRefreshFunc (.error e) des = ("Error", some e) ∧
      (countryUpdateRefreshFunc (.ok (some cRes)) cdes = ("Updated", none) ↔
        (cRes.CountriesAndRegions = cdes.countries_and_regions ∧
          cRes.IncludeUnknownCountriesAndRegions.getD false =
            cdes.include_unknown_countries_and_regions)) ∧
      (countryUpdateRefreshFunc (.ok (some cRes)) cdes = ("Pending", none) ↔
        ¬(cRes.CountriesAndRegions = cdes.countries_and_regions ∧
          cRes.IncludeUnknownCountriesAndRegions.getD false =
            cdes.include_unknown_countries_and_regions)) ∧
      countryUpdateRefreshFunc (.error e) cdes = ("Error", some e) := by
  refine ⟨?_, ?_, rfl, ?_, ?_, rfl⟩ <;>
    · simp only [ipUpdateRefreshFunc, countryUpdateRefreshFunc,
        flattenIPauthenticationStrength, flattenCountryauthenticationStrength]
      split_ifs <;> simp_all

/-- C3 as stated is false: a successful create issues the create call and then
proceeds directly to the subsequent read — the trace contains the read but no
poll-until-converged phase before it. -/
theorem C3_counterexample :
    CAction.readPhase ∈
        (authenticationStrengthResourceCreate true false
            { createIPResult := Except.ok
                { base := { ID := some "loc1", DisplayName := none }
                  IpRanges := ["10.0.0.0/8"]
                  IsTrusted := none }
              createCountryResult := Except.error { msg := "unused" } }
            { id := "", display_name := none, ip := none, country := none }).1 ∧
      CAction.pollWait ∉
        (authenticationStrengthResourceCreate true false
            { createIPResult := Except.ok
                { base := { ID := some "loc1", DisplayName := none }
                  IpRanges := ["10.0.0.0/8"]
                  IsTrusted := none }
              createCountryResult := Except.error { msg := "unused" } }
            { id := "", display_name := none, ip := none, country := none }).1 := by
  decide

/-- C3 amended: for every create operation the Resource Controller performs
Create and, on success, stores the returned id and proceeds directly to the
subsequent Read with no convergence polling in between; no run of the create
path ever contains a poll phase. -/
theorem C3_create_reads_directly_without_poll (env : CreateEnv) (d : ResourceData) :
    (∀ loc locId, env.createIPResult = .ok loc → loc.base.ID = some locId → locId ≠ "" →
      authenticationStrengthResourceCreate true false env d =
        ([.createIP, .readPhase], { d with id := locId }, none)) ∧
      (∀ loc locId, env.createCountryResult = .ok loc → loc.base.ID = some locId → locId ≠ "" →
        authenticationStrengthResourceCreate false true env d =
          ([.createCountry, .readPhase], { d with id := locId }, none)) ∧
      (∀ hasIp hasCountry,
        CAction.pollWait ∉ (authenticationStrengthResourceCreate hasIp hasCountry env d).1) := by
  refine ⟨?_, ?_, ?_⟩
  · intro loc locId h1 h2 h3
    simp [authenticationStrengthResourceCreate, h1, h2, h3]
  · intro loc locId h1 h2 h3
    simp [authenticationStrengthResourceCreate, h1, h2, h3]
  · intro hasIp hasCountry
    unfold authenticationStrengthResourceCreate
    repeat' split
    all_goals simp

/-- A concrete create environment whose IP create call succeeds. -/
def createEnvA : CreateEnv :=
  { createIPResult := Except.ok
      { base := { ID := some "loc2", DisplayName := none }
        IpRanges := ["192.168.0.0/16"]
        IsTrusted := none }
    createCountryResult := Except.error { msg := "unused" } }

/-- A fresh Terraform state record with nothing set. -/
def emptyResourceData : ResourceData :=
  { id := "", display_name := none, ip := none, country := none }

theorem C3_create_reads_directly_without_poll_witness :
    (createEnvA.createIPResult = Except.ok
        { base := { ID := some "loc2", DisplayName := none }
          IpRanges := ["192.168.0.0/16"]
          IsTrusted := none } ∧
      ({ base := { ID := some "loc2", DisplayName := none }
         IpRanges := ["192.168.0.0/16"]
         IsTrusted := none } : IPauthenticationStrength).base.ID = some "loc2" ∧
      ("loc2" : String) ≠ "") ∧
      authenticationStrengthResourceCreate true false createEnvA emptyResourceData =
        ([.createIP, .readPhase], { emptyResourceData with id := "loc2" }, none) :=
  ⟨⟨rfl, rfl, by decide⟩,
    (C3_create_reads_directly_without_poll createEnvA emptyResourceData).1
      _ _ rfl rfl (by decide)⟩

/-- C6: a not-found result on the pre-delete existence check makes the delete
return immediately with no diagnostic and no further remote action — deleting
an already-absent named location succeeds, for the ip and the country
configuration alike. -/
theorem C6_idempotent_delete (env : DeleteEnv) (e : GraphError) (hasCountry : Bool) :
    (env.getIPResult = .error (404, e) →
      authenticationStrengthResourceDelete true hasCountry env = ([.getIP], none)) ∧
      (env.getCountryResult = .error (404, e) →
        authenticationStrengthResourceDelete false true env = ([.getCountry], none)) := by
  constructor
  · intro h
    simp [authenticationStrengthResourceDelete, h]
  · intro h
    simp [authenticationStrengthResourceDelete, deleteCountryCheck, h]

/-- A concrete delete environment whose pre-delete gets report not-found. -/
def deleteEnvAbsent : DeleteEnv :=
  { getIPResult := .error (404, { msg := "not found" })
    updateIPResult := none
    getCountryResult := .error (404, { msg := "not found" })
    deleteResult := (204, none)
    waitResult := none }

theorem C6_idempotent_delete_witness :
    deleteEnvAbsent.getIPResult = .error (404, { msg := "not found" }) ∧
      authenticationStrengthResourceDelete true false deleteEnvAbsent = ([.getIP], none) :=
  ⟨rfl, (C6_idempotent_delete deleteEnvAbsent { msg := "not found" } false).1 rfl⟩

/-- C7: a successful read matching exactly one concrete subtype changes only
the id, the display name, and the block of that subtype; the block of the
other subtype is left exactly as it was (in particular unset when it was
unset). -/
theorem C7_read_populates_only_matching_subtype (d : ResourceData)
    (c : CountryauthenticationStrength) (l : IPauthenticationStrength)
    (cid lid : String) (hc : c.base.ID = some cid) (hl : l.base.ID = some lid) :
    authenticationStrengthResourceRead
        { result := some (.countryLoc c), status := 200, err := none } d =
      ({ d with id := cid
                display_name := c.base.DisplayName
                country := some (flattenCountryauthenticationStrength (some c)) }, none) ∧
      (authenticationStrengthResourceRead
          { result := some (.countryLoc c), status := 200, err := none } d).1.ip = d.ip ∧
      authenticationStrengthResourceRead
          { result := some (.ipLoc l), status := 200, err := none } d =
        ({ d with id := lid
                  display_name := l.base.DisplayName
                  ip := some (flattenIPauthenticationStrength (some l)) }, none) ∧
      (authenticationStrengthResourceRead
          { result := some (.ipLoc l), status := 200, err := none } d).1.country = d.country := by
  refine ⟨?_, ?_, ?_, ?_⟩ <;>
    simp [authenticationStrengthResourceRead, readDispatch, hc, hl]

theorem C7_read_populates_only_matching_subtype_witness :
    (({ base := { ID := some "loc3", DisplayName := some "Country NL" }
        CountriesAndRegions := ["US", "GB"]
        IncludeUnknownCountriesAndRegions := some false } :
          CountryauthenticationStrength).base.ID = some "loc3" ∧
      ({ base := { ID := some "loc4", DisplayName := some "IP NL" }
         IpRanges := ["10.0.0.0/8"]
         IsTrusted := some true } : IPauthenticationStrength).base.ID = some "loc4") ∧
      (authenticationStrengthResourceRead
          { result := some (.countryLoc
              { base := { ID := some "loc3", DisplayName := some "Country NL" }
                CountriesAndRegions := ["US", "GB"]
                IncludeUnknownCountriesAndRegions := some false })
            status := 200
            err := none }
          emptyResourceData).1.ip = emptyResourceData.ip :=
  ⟨⟨rfl, rfl⟩,
    (C7_read_populates_only_matching_subtype emptyResourceData
        { base := { ID := some "loc3", DisplayName := some "Country NL" }
          CountriesAndRegions := ["US", "GB"]
          IncludeUnknownCountriesAndRegions := some false }
        { base := { ID := some "loc4", DisplayName := some "IP NL" }
          IpRanges := ["10.0.0.0/8"]
          IsTrusted := some true }
        "loc3" "loc4" rfl rfl).2.1⟩

/-- C10: when the pre-delete get returns an IP named location marked trusted,
the delete path issues an update clearing the trusted flag before the delete
request; when the location is not marked trusted, no such update is issued at
all. -/
theorem C10_trusted_cleared_before_delete (env : DeleteEnv)
    (r : IPauthenticationStrength) (h : env.getIPResult = .ok (some r)) :
    (r.IsTrusted = some true → env.updateIPResult = none →
      ∃ post, (authenticationStrengthResourceDelete true false env).1 =
          [DAction.getIP, DAction.updateIP false] ++ post ∧ DAction.deleteReq ∈ post) ∧
      (r.IsTrusted ≠ some true →
        ∀ b, DAction.updateIP b ∉ (authenticationStrengthResourceDelete true false env).1) := by
  obtain ⟨gip, upd, gc, ⟨dst, derr⟩, wres⟩ := env
  simp only [DeleteEnv.getIPResult] at h
  subst h
  constructor
  · intro ht hu
    simp only [DeleteEnv.updateIPResult] at hu
    subst hu
    cases derr with
    | none =>
        cases wres with
        | none =>
            refine ⟨[DAction.deleteReq, DAction.waitPoll], ?_, by simp⟩
            simp [authenticationStrengthResourceDelete, ht, deleteCountryCheck,
              deleteAfterChecks]
        | some e =>
            refine ⟨[DAction.deleteReq, DAction.waitPoll], ?_, by simp⟩
            simp [authenticationStrengthResourceDelete, ht, deleteCountryCheck,
              deleteAfterChecks]
    | some e =>
        refine ⟨[DAction.deleteReq], ?_, by simp⟩
        simp [authenticationStrengthResourceDelete, ht, deleteCountryCheck,
          deleteAfterChecks]
  · intro ht b
    cases hu : upd <;> cases derr <;> cases wres <;>
      simp [authenticationStrengthResourceDelete, ht, deleteCountryCheck,
        deleteAfterChecks]

/-- A concrete IP named location marked trusted. -/
def ipTrustedLoc : IPauthenticationStrength :=
  { base := { ID := some "loc5", DisplayName := none }
    IpRanges := ["10.0.0.0/8"]
    IsTrusted := some true }

/-- A concrete delete environment observing `ipTrustedLoc` with every remote
call succeeding. -/
def deleteEnvTrusted : DeleteEnv :=
  { getIPResult := .ok (some ipTrustedLoc)
    updateIPResult := none
    getCountryResult := .error (404, { msg := "unused" })
    deleteResult := (204, none)
    waitResult := none }

theorem C10_trusted_cleared_before_delete_witness :
    (deleteEnvTrusted.getIPResult = .ok (some ipTrustedLoc) ∧
      ipTrustedLoc.IsTrusted = some true ∧
      deleteEnvTrusted.updateIPResult = none) ∧
      ∃ post, (authenticationStrengthResourceDelete true false deleteEnvTrusted).1 =
          [DAction.getIP, DAction.updateIP false] ++ post ∧ DAction.deleteReq ∈ post :=
  ⟨⟨rfl, rfl, rfl⟩,
    (C10_trusted_cleared_before_delete deleteEnvTrusted ipTrustedLoc rfl).1 rfl rfl⟩
